import Mathlib

/-!
Verification of the token-lifecycle-aware authenticated logging client
(`SupabaseLogger` in `backend/onyx/onyxbot/slack/handlers/supabase/supabase.py`).

The mutable state of a `SupabaseLogger` instance is the credential triple
`(access_token, refresh_token, expires_at)`; the configuration fields
(`url`, `api_key`, `auth_email`, `auth_password`) only shape outbound HTTP
requests, whose responses are abstracted by an environment, so they are not
part of the embedded state.

HTTP interactions are modelled by an environment `Env` that fixes the current
time and the outcome of the n-th authentication / refresh / log-insert call.
Each embedded method threads an explicit event trace recording every network
call (with its outcome) and every token invalidation, so that call-count and
ordering properties can be stated about the trace.

Python semantics embedded faithfully:
  - `if not self.access_token:` is truthiness: `None` and `""` both count as
    absent (`strTruthy`); likewise `self.expires_at and ...` treats `0` as
    falsy (`intTruthy`).
  - `response.raise_for_status()` raises exactly for status codes in
    [400, 600) (`raisesForStatus`).
  - the response-body parse `data["access_token"]; data["refresh_token"];
    data.get("expires_in", 3600)` assigns the fields in that order, so a 2xx
    body holding `access_token` but lacking `refresh_token` updates
    `access_token` and then raises (`applyTokenOutcome`).
  - exceptions are modelled by the `raised` flag of each step result.
-/

/-- The credential triple owned by one `SupabaseLogger` instance
(`self.access_token`, `self.refresh_token`, `self.expires_at`).
`expires_at` is a unix timestamp. -/
structure Credential where
  access_token : Option String
  refresh_token : Option String
  expires_at : Option Int
deriving DecidableEq, Repr

/-- Python truthiness of an optional string: `None` and `""` are falsy. -/
def strTruthy : Option String → Bool
  | none => false
  | some s => !decide (s = "")

/-- Python truthiness of an optional integer: `None` and `0` are falsy. -/
def intTruthy : Option Int → Bool
  | none => false
  | some n => !decide (n = 0)

/-- Parsed JSON body of an auth/refresh response: either not valid JSON
(`malformed`) or a record with the three fields the code reads, each possibly
missing. -/
inductive TokenBody where
  | malformed
  | fields (access_token : Option String) (refresh_token : Option String)
      (expires_in : Option Int)
deriving DecidableEq, Repr

/-- Outcome of one HTTP POST: the request itself raised (network error), or a
response with a status code and a body. -/
inductive HttpOutcome (β : Type) where
  | netErr
  | resp (status : Nat) (body : β)
deriving DecidableEq, Repr

/-- `requests.Response.raise_for_status` raises exactly for 4xx/5xx codes. -/
def raisesForStatus (st : Nat) : Bool := decide (400 ≤ st ∧ st < 600)

/-- One observable event of a `SupabaseLogger` execution: a network call of
one of the three kinds (with its outcome), or the explicit token invalidation
`self.access_token = None` performed by `log_success`. -/
inductive Event where
  | authCall (o : HttpOutcome TokenBody)
  | refreshCall (o : HttpOutcome TokenBody)
  | insertCall (o : HttpOutcome Unit)
  | invalidate
deriving DecidableEq, Repr

/-- An execution trace: the sequence of events so far. -/
abbrev Trace := List Event

def isAuthCall : Event → Bool
  | .authCall _ => true
  | _ => false

def isRefreshCall : Event → Bool
  | .refreshCall _ => true
  | _ => false

def isInsertCall : Event → Bool
  | .insertCall _ => true
  | _ => false

def isInvalidate : Event → Bool
  | .invalidate => true
  | _ => false

def countAuth (tr : Trace) : Nat := tr.countP isAuthCall
def countRefresh (tr : Trace) : Nat := tr.countP isRefreshCall
def countInsert (tr : Trace) : Nat := tr.countP isInsertCall
def countInvalidate (tr : Trace) : Nat := tr.countP isInvalidate

/-- The environment abstracting the outside world: the current unix time and
the outcome of the n-th call (0-indexed, counted per kind over the whole
trace) to each of the three endpoints. -/
structure Env where
  now : Int
  authResp : Nat → HttpOutcome TokenBody
  refreshResp : Nat → HttpOutcome TokenBody
  insertResp : Nat → HttpOutcome Unit

/-- Result of a method that returns nothing in Python: final credential
state, final trace, and whether the call raised an exception. -/
structure StepResult where
  state : Credential
  trace : Trace
  raised : Bool
deriving DecidableEq, Repr

/-- Result of `_get_valid_token`: final state, trace, raised flag, and the
returned value of `self.access_token` (meaningful when `raised = false`). -/
structure GVTResult where
  state : Credential
  trace : Trace
  raised : Bool
  ret : Option String
deriving DecidableEq, Repr

/-- Shared body of `_authenticate` (lines 117–123) and `_refresh_token`
(lines 88–94): `raise_for_status()`, then `data = response.json()`, then the
three field assignments in source order
(`self.access_token = data["access_token"]`,
`self.refresh_token = data["refresh_token"]`,
`self.expires_at = now + data.get("expires_in", 3600)`).
Returns the resulting credential and whether the call raised.  A missing
`refresh_token` key raises *after* `access_token` has been assigned. -/
def applyTokenOutcome (o : HttpOutcome TokenBody) (now : Int) (s : Credential) :
    Credential × Bool :=
  match o with
  | .netErr => (s, true)
  | .resp st body =>
    if raisesForStatus st then (s, true)
    else
      match body with
      | .malformed => (s, true)
      | .fields accTok refTok expIn =>
        match accTok with
        | none => (s, true)
        | some a =>
          let s1 : Credential := ⟨some a, s.refresh_token, s.expires_at⟩
          match refTok with
          | none => (s1, true)
          | some r => (⟨some a, some r, some (now + expIn.getD 3600)⟩, false)

/-- `SupabaseLogger._authenticate`: one POST to the password-grant endpoint,
then the shared response handling.  On any exception the exception
propagates (`raised = true`). -/
def authenticate (env : Env) (s : Credential) (tr : Trace) : StepResult :=
  let o := env.authResp (countAuth tr)
  let p := applyTokenOutcome o env.now s
  ⟨p.1, tr ++ [Event.authCall o], p.2⟩

/-- `SupabaseLogger._refresh_token`: one POST to the refresh-grant endpoint,
then the shared response handling.  On any exception the exception
propagates (`raised = true`). -/
def refresh_token (env : Env) (s : Credential) (tr : Trace) : StepResult :=
  let o := env.refreshResp (countRefresh tr)
  let p := applyTokenOutcome o env.now s
  ⟨p.1, tr ++ [Event.refreshCall o], p.2⟩

/-- The `self._authenticate(); return self.access_token` step of
`_get_valid_token` (lines 53–54, 65–66, 70–71): run `_authenticate`; when it
raises, the exception propagates; otherwise the (just stored) access token
is returned. -/
def authReturning (env : Env) (s : Credential) (tr : Trace) : GVTResult :=
  let r := authenticate env s tr
  if r.raised then ⟨r.state, r.trace, true, none⟩
  else ⟨r.state, r.trace, false, r.state.access_token⟩

/-- `SupabaseLogger._get_valid_token` (lines 45–73), with the source's
control flow:
  1. `if not self.access_token:` authenticate and return it;
  2. `if self.expires_at and current_time >= self.expires_at and
     self.refresh_token:` try refresh, falling back to authenticate on
     refresh failure (a failure of that fallback propagates);
  3. `if self.expires_at and current_time >= self.expires_at:` authenticate;
  4. otherwise return the stored token. -/
def get_valid_token (env : Env) (s : Credential) (tr : Trace) : GVTResult :=
  if strTruthy s.access_token = false then
    authReturning env s tr
  else
    let expired := intTruthy s.expires_at && decide (s.expires_at.getD 0 ≤ env.now)
    if expired && strTruthy s.refresh_token then
      let r := refresh_token env s tr
      if r.raised = false then ⟨r.state, r.trace, false, r.state.access_token⟩
      else authReturning env r.state r.trace
    else if expired then
      authReturning env s tr
    else ⟨s, tr, false, s.access_token⟩

/-- `SupabaseLogger._insert_log`: get a valid token (exceptions propagate),
then one POST to the log-insert endpoint followed by `raise_for_status()`.
The response body is never read.  The log entry itself does not influence
control flow or the credential state, so it is not part of the model. -/
def insert_log (env : Env) (s : Credential) (tr : Trace) : StepResult :=
  let g := get_valid_token env s tr
  if g.raised then ⟨g.state, g.trace, true⟩
  else
    let o := env.insertResp (countInsert g.trace)
    ⟨g.state, g.trace ++ [Event.insertCall o],
      match o with
      | .netErr => true
      | .resp st _ => raisesForStatus st⟩

/-- The token invalidation `self.access_token = None  # Force new token`
performed by `log_success` (line 190): it clears only `access_token`;
`refresh_token` and `expires_at` keep their values. -/
def invalidateToken (s : Credential) : Credential :=
  ⟨none, s.refresh_token, s.expires_at⟩

/-- `SupabaseLogger.log_success` (lines 182–197): try `_insert_log`; on any
exception set `self.access_token = None` and retry `_insert_log` once; a
failure of the retry is logged and swallowed, so the method itself never
raises. -/
def log_success (env : Env) (s : Credential) (tr : Trace) : StepResult :=
  let r1 := insert_log env s tr
  if r1.raised then
    let r2 := insert_log env (invalidateToken r1.state) (r1.trace ++ [Event.invalidate])
    if r2.raised then ⟨r2.state, r2.trace, false⟩
    else ⟨r2.state, r2.trace, false⟩
  else ⟨r1.state, r1.trace, false⟩

/-- The credential state set up by `SupabaseLogger.__init__`. -/
def freshCredential : Credential := ⟨none, none, none⟩

/-- One public or private operation of a `SupabaseLogger` instance, each
invocation carrying its own environment. -/
inductive Op where
  | authenticateOp (env : Env)
  | refreshTokenOp (env : Env)
  | getValidTokenOp (env : Env)
  | insertLogOp (env : Env)
  | logSuccessOp (env : Env)

/-- Run one operation, keeping the resulting state and cumulative trace. -/
def runOp (op : Op) (s : Credential) (tr : Trace) : Credential × Trace :=
  match op with
  | .authenticateOp env => let r := authenticate env s tr; (r.state, r.trace)
  | .refreshTokenOp env => let r := refresh_token env s tr; (r.state, r.trace)
  | .getValidTokenOp env => let g := get_valid_token env s tr; (g.state, g.trace)
  | .insertLogOp env => let r := insert_log env s tr; (r.state, r.trace)
  | .logSuccessOp env => let r := log_success env s tr; (r.state, r.trace)

/-- Run a sequence of operations from a freshly constructed instance. -/
def runOps (ops : List Op) : Credential × Trace :=
  ops.foldl (fun p op => runOp op p.1 p.2) (freshCredential, [])

/-- An auth/refresh outcome that reaches the assignment
`self.access_token = data["access_token"]`: a non-4xx/5xx response whose
body parses and holds an `access_token` key (the call may still raise
afterwards on a missing `refresh_token` key). -/
def outcomeAssigns : HttpOutcome TokenBody → Bool
  | .resp st (.fields (some _) _ _) => !raisesForStatus st
  | _ => false

/-- A fully successful auth/refresh outcome: non-4xx/5xx response whose body
holds both `access_token` and `refresh_token`. -/
def outcomeSucceeds : HttpOutcome TokenBody → Bool
  | .resp st (.fields (some _) (some _) _) => !raisesForStatus st
  | _ => false

/-- Did this event write `self.access_token` from a response body? -/
def eventAssigns : Event → Bool
  | .authCall o => outcomeAssigns o
  | .refreshCall o => outcomeAssigns o
  | _ => false

/-- Was this event a fully successful authenticate/refresh? -/
def eventSuccess : Event → Bool
  | .authCall o => outcomeSucceeds o
  | .refreshCall o => outcomeSucceeds o
  | _ => false

/-- Fold step: has `access_token` been written since the last invalidation? -/
def setStep (b : Bool) (e : Event) : Bool :=
  match e with
  | .invalidate => false
  | e => b || eventAssigns e

/-- `access_token` was written from a response body at some point after the
last `invalidate` event (or after the start, when never invalidated). -/
def tokenSetSince (tr : Trace) : Bool := tr.foldl setStep false

/-- Fold step: fully successful auth/refresh since the last invalidation? -/
def succStep (b : Bool) (e : Event) : Bool :=
  match e with
  | .invalidate => false
  | e => b || eventSuccess e

/-- A fully successful authenticate/refresh occurred after the last
`invalidate` event (or after the start, when never invalidated). -/
def successSince (tr : Trace) : Bool := tr.foldl succStep false

/-- What a failed `_authenticate`/`_refresh_token` call with response
outcome `o` does to the credential: `refresh_token` and `expires_at` are
always left unchanged, and `access_token` is left unchanged unless the
outcome was a non-4xx/5xx response whose body holds `access_token` but
lacks `refresh_token`, in which case `access_token` was assigned before
the failure. -/
def failFrame (s s' : Credential) (o : HttpOutcome TokenBody) : Prop :=
  s'.refresh_token = s.refresh_token ∧ s'.expires_at = s.expires_at ∧
  (s'.access_token = s.access_token ∨
    ∃ st a ei, o = HttpOutcome.resp st (TokenBody.fields (some a) none ei) ∧
      raisesForStatus st = false ∧ s'.access_token = some a)

/-- Environment in which every network call fails with a transport error. -/
def envAllFail : Env := ⟨0, fun _ => .netErr, fun _ => .netErr, fun _ => .netErr⟩

/-- Environment in which every authentication call succeeds with token pair
`("a", "r")` and expiry 100 seconds from now; other calls fail. -/
def envAuthOk : Env :=
  ⟨0, fun _ => .resp 200 (.fields (some "a") (some "r") (some 100)),
      fun _ => .netErr, fun _ => .netErr⟩

/-- Environment in which every auth/refresh call gets a 200 response whose
JSON body holds `access_token: "x"` but no `refresh_token` key. -/
def envNoRefreshField : Env :=
  ⟨0, fun _ => .resp 200 (.fields (some "x") none none),
      fun _ => .resp 200 (.fields (some "x") none none),
      fun _ => .netErr⟩

/-- The scenario environment of the spec's retry example: authentication
always succeeds, the log-insert endpoint returns 401 on the first call and
200 on the second. -/
def envRetryScenario : Env :=
  ⟨0, fun _ => .resp 200 (.fields (some "a") (some "r") (some 3600)),
      fun _ => .netErr,
      fun n => if n = 0 then .resp 401 () else .resp 200 ()⟩

/-- A credential whose stored access token is the empty string (Python-falsy)
with an unexpired expiry. -/
def sEmptyTok : Credential := ⟨some "", some "rt", some 100⟩

/-- A credential whose stored access token is the empty string (Python-falsy)
and which has no expiry timestamp. -/
def sEmptyTokNoExp : Credential := ⟨some "", some "rt", none⟩

/-- A credential whose expiry timestamp is the unix instant 0 (Python-falsy)
while holding non-empty access and refresh tokens. -/
def sZeroExp : Credential := ⟨some "tok", some "rt", some 0⟩

/-- A credential holding a non-empty unexpired access token. -/
def sFreshTok : Credential := ⟨some "tok", none, some 10⟩

/-- A credential holding a non-empty access token with no expiry and a
stored refresh token. -/
def sTokNoExp : Credential := ⟨some "tok", some "rt", none⟩

/-- A credential holding non-empty tokens with an expiry in the past
(relative to `envAllFail.now = 0`). -/
def sExpiredTok : Credential := ⟨some "t", some "r", some (-1)⟩

/-- A credential with no access token but a stored refresh token and expiry. -/
def sNoTok : Credential := ⟨none, some "old", some 5⟩

attribute [simp] isAuthCall isRefreshCall isInsertCall isInvalidate

@[simp]
theorem countAuth_nil : countAuth [] = 0 := rfl

@[simp]
theorem countRefresh_nil : countRefresh [] = 0 := rfl

@[simp]
theorem countInsert_nil : countInsert [] = 0 := rfl

@[simp]
theorem countInvalidate_nil : countInvalidate [] = 0 := rfl

@[simp]
theorem countAuth_append (l1 l2 : Trace) :
    countAuth (l1 ++ l2) = countAuth l1 + countAuth l2 := by
  simp [countAuth, List.countP_append]

@[simp]
theorem countRefresh_append (l1 l2 : Trace) :
    countRefresh (l1 ++ l2) = countRefresh l1 + countRefresh l2 := by
  simp [countRefresh, List.countP_append]

@[simp]
theorem countInsert_append (l1 l2 : Trace) :
    countInsert (l1 ++ l2) = countInsert l1 + countInsert l2 := by
  simp [countInsert, List.countP_append]

@[simp]
theorem countInvalidate_append (l1 l2 : Trace) :
    countInvalidate (l1 ++ l2) = countInvalidate l1 + countInvalidate l2 := by
  simp [countInvalidate, List.countP_append]

@[simp]
theorem countAuth_cons (e : Event) (l : Trace) :
    countAuth (e :: l) = countAuth l + (if isAuthCall e then 1 else 0) := by
  simp [countAuth, List.countP_cons]

@[simp]
theorem countRefresh_cons (e : Event) (l : Trace) :
    countRefresh (e :: l) = countRefresh l + (if isRefreshCall e then 1 else 0) := by
  simp [countRefresh, List.countP_cons]

@[simp]
theorem countInsert_cons (e : Event) (l : Trace) :
    countInsert (e :: l) = countInsert l + (if isInsertCall e then 1 else 0) := by
  simp [countInsert, List.countP_cons]

@[simp]
theorem countInvalidate_cons (e : Event) (l : Trace) :
    countInvalidate (e :: l) = countInvalidate l + (if isInvalidate e then 1 else 0) := by
  simp [countInvalidate, List.countP_cons]

theorem applyTokenOutcome_raised (o : HttpOutcome TokenBody) (now : Int) (s : Credential) :
    (applyTokenOutcome o now s).2 = !outcomeSucceeds o := by
  cases o with
  | netErr => rfl
  | resp st body =>
    cases body with
    | malformed =>
      by_cases h : raisesForStatus st = true <;>
        simp [applyTokenOutcome, outcomeSucceeds, h]
    | fields accTok refTok expIn =>
      cases accTok <;> cases refTok <;>
        by_cases h : raisesForStatus st = true <;>
          simp [applyTokenOutcome, outcomeSucceeds, h]

theorem applyTokenOutcome_access (o : HttpOutcome TokenBody) (now : Int) (s : Credential) :
    ((applyTokenOutcome o now s).1.access_token = none) ↔
      (outcomeAssigns o = false ∧ s.access_token = none) := by
  cases o with
  | netErr => simp [applyTokenOutcome, outcomeAssigns]
  | resp st body =>
    cases body with
    | malformed =>
      by_cases h : raisesForStatus st = true <;>
        simp [applyTokenOutcome, outcomeAssigns, h]
    | fields accTok refTok expIn =>
      cases accTok <;> cases refTok <;>
        by_cases h : raisesForStatus st = true <;>
          simp [applyTokenOutcome, outcomeAssigns, h]

theorem applyTokenOutcome_succeeds (o : HttpOutcome TokenBody) (now : Int) (s : Credential)
    (h : outcomeSucceeds o = true) :
    ∃ st a r ei, o = HttpOutcome.resp st (TokenBody.fields (some a) (some r) ei) ∧
      raisesForStatus st = false ∧
      applyTokenOutcome o now s = (⟨some a, some r, some (now + ei.getD 3600)⟩, false) := by
  cases o with
  | netErr => simp [outcomeSucceeds] at h
  | resp st body =>
    cases body with
    | malformed => simp [outcomeSucceeds] at h
    | fields accTok refTok expIn =>
      cases accTok with
      | none => simp [outcomeSucceeds] at h
      | some a =>
        cases refTok with
        | none => simp [outcomeSucceeds] at h
        | some r =>
          simp [outcomeSucceeds] at h
          exact ⟨st, a, r, expIn, rfl, h, by simp [applyTokenOutcome, h]⟩

theorem applyTokenOutcome_fail_frame (o : HttpOutcome TokenBody) (now : Int) (s : Credential)
    (h : (applyTokenOutcome o now s).2 = true) :
    failFrame s (applyTokenOutcome o now s).1 o := by
  cases o with
  | netErr => exact ⟨rfl, rfl, Or.inl rfl⟩
  | resp st body =>
    by_cases hrs : raisesForStatus st = true
    · cases body <;> simp [failFrame, applyTokenOutcome, hrs]
    · cases body with
      | malformed => simp [failFrame, applyTokenOutcome, hrs]
      | fields accTok refTok expIn =>
        cases accTok with
        | none => simp [failFrame, applyTokenOutcome, hrs]
        | some a =>
          cases refTok with
          | none =>
            refine ⟨?_, ?_, Or.inr ⟨st, a, expIn, rfl, by simp [hrs], ?_⟩⟩ <;>
              simp [applyTokenOutcome, hrs]
          | some r => simp [applyTokenOutcome, hrs] at h

@[simp]
theorem authReturning_state (env : Env) (s : Credential) (tr : Trace) :
    (authReturning env s tr).state =
      (applyTokenOutcome (env.authResp (countAuth tr)) env.now s).1 := by
  by_cases h : (applyTokenOutcome (env.authResp (countAuth tr)) env.now s).2 = true <;>
    simp [authReturning, authenticate, h]

@[simp]
theorem authReturning_trace (env : Env) (s : Credential) (tr : Trace) :
    (authReturning env s tr).trace = tr ++ [Event.authCall (env.authResp (countAuth tr))] := by
  by_cases h : (applyTokenOutcome (env.authResp (countAuth tr)) env.now s).2 = true <;>
    simp [authReturning, authenticate, h]

@[simp]
theorem authReturning_raised (env : Env) (s : Credential) (tr : Trace) :
    (authReturning env s tr).raised =
      !outcomeSucceeds (env.authResp (countAuth tr)) := by
  have hr := applyTokenOutcome_raised (env.authResp (countAuth tr)) env.now s
  cases hOS : outcomeSucceeds (env.authResp (countAuth tr)) <;> rw [hOS] at hr <;>
    simp at hr <;> simp [authReturning, authenticate, hr]

theorem authReturning_ret (env : Env) (s : Credential) (tr : Trace)
    (h : (authReturning env s tr).raised = false) :
    (authReturning env s tr).ret =
      (applyTokenOutcome (env.authResp (countAuth tr)) env.now s).1.access_token := by
  by_cases h2 : (applyTokenOutcome (env.authResp (countAuth tr)) env.now s).2 = true
  · simp [authReturning, authenticate, h2] at h
  · simp [authReturning, authenticate, h2]

theorem gvt_no_token (env : Env) (s : Credential) (tr : Trace)
    (h : strTruthy s.access_token = false) :
    get_valid_token env s tr = authReturning env s tr := by
  simp [get_valid_token, h]

theorem strTruthy_none_false : strTruthy none = false := rfl

theorem strTruthy_some_true (t : String) (h : t ≠ "") : strTruthy (some t) = true := by
  simp [strTruthy, h]

theorem gvt_none_token_trace (env : Env) (s : Credential) (tr : Trace)
    (h : s.access_token = none) :
    (get_valid_token env s tr).trace = tr ++ [Event.authCall (env.authResp (countAuth tr))] := by
  rw [gvt_no_token env s tr (by rw [h]; rfl)]
  exact authReturning_trace env s tr

theorem tokenSetSince_append_one (tr : Trace) (e : Event) :
    tokenSetSince (tr ++ [e]) = setStep (tokenSetSince tr) e := by
  simp [tokenSetSince, List.foldl_append]

theorem inv_token_step (o : HttpOutcome TokenBody) (now : Int) (s : Credential) (b : Bool)
    (h : (s.access_token = none) ↔ (b = false)) :
    ((applyTokenOutcome o now s).1.access_token = none) ↔ ((b || outcomeAssigns o) = false) := by
  rw [applyTokenOutcome_access]
  cases hA : outcomeAssigns o <;> cases hB : b <;> rw [hB] at h <;> simp at h <;> simp [h]

theorem inv_auth_parts (env : Env) (s : Credential) (tr : Trace)
    (h : (s.access_token = none) ↔ (tokenSetSince tr = false)) :
    ((applyTokenOutcome (env.authResp (countAuth tr)) env.now s).1.access_token = none) ↔
      (tokenSetSince (tr ++ [Event.authCall (env.authResp (countAuth tr))]) = false) := by
  rw [tokenSetSince_append_one]
  simp only [setStep, eventAssigns]
  exact inv_token_step _ _ _ _ h

theorem inv_refresh_parts (env : Env) (s : Credential) (tr : Trace)
    (h : (s.access_token = none) ↔ (tokenSetSince tr = false)) :
    ((applyTokenOutcome (env.refreshResp (countRefresh tr)) env.now s).1.access_token = none) ↔
      (tokenSetSince (tr ++ [Event.refreshCall (env.refreshResp (countRefresh tr))]) = false) := by
  rw [tokenSetSince_append_one]
  simp only [setStep, eventAssigns]
  exact inv_token_step _ _ _ _ h

theorem inv_gvt (env : Env) (s : Credential) (tr : Trace)
    (h : (s.access_token = none) ↔ (tokenSetSince tr = false)) :
    (((get_valid_token env s tr).state.access_token = none) ↔
      (tokenSetSince (get_valid_token env s tr).trace = false)) := by
  by_cases h1 : strTruthy s.access_token = false
  · rw [gvt_no_token env s tr h1, authReturning_state, authReturning_trace]
    exact inv_auth_parts env s tr h
  · simp only [get_valid_token, if_neg h1]
    split
    · split
      · exact inv_refresh_parts env s tr h
      · rw [authReturning_state, authReturning_trace]
        exact inv_auth_parts env _ _ (inv_refresh_parts env s tr h)
    · split
      · rw [authReturning_state, authReturning_trace]
        exact inv_auth_parts env s tr h
      · exact h

theorem inv_insert_log (env : Env) (s : Credential) (tr : Trace)
    (h : (s.access_token = none) ↔ (tokenSetSince tr = false)) :
    (((insert_log env s tr).state.access_token = none) ↔
      (tokenSetSince (insert_log env s tr).trace = false)) := by
  simp only [insert_log]
  split
  · exact inv_gvt env s tr h
  · have hg := inv_gvt env s tr h
    rw [tokenSetSince_append_one]
    simpa [setStep, eventAssigns] using hg

theorem inv_log_success (env : Env) (s : Credential) (tr : Trace)
    (h : (s.access_token = none) ↔ (tokenSetSince tr = false)) :
    (((log_success env s tr).state.access_token = none) ↔
      (tokenSetSince (log_success env s tr).trace = false)) := by
  simp only [log_success]
  split
  · have h2 : ((invalidateToken (insert_log env s tr).state).access_token = none) ↔
        (tokenSetSince ((insert_log env s tr).trace ++ [Event.invalidate]) = false) := by
      rw [tokenSetSince_append_one]
      simp [invalidateToken, setStep]
    have h3 := inv_insert_log env _ _ h2
    split
    · exact h3
    · exact h3
  · exact inv_insert_log env s tr h

theorem inv_runOp (op : Op) (s : Credential) (tr : Trace)
    (h : (s.access_token = none) ↔ (tokenSetSince tr = false)) :
    (((runOp op s tr).1.access_token = none) ↔
      (tokenSetSince (runOp op s tr).2 = false)) := by
  cases op with
  | authenticateOp env =>
    simpa [runOp, authenticate] using inv_auth_parts env s tr h
  | refreshTokenOp env =>
    simpa [runOp, refresh_token] using inv_refresh_parts env s tr h
  | getValidTokenOp env => exact inv_gvt env s tr h
  | insertLogOp env => exact inv_insert_log env s tr h
  | logSuccessOp env => exact inv_log_success env s tr h

theorem inv_foldl (ops : List Op) :
    ∀ p : Credential × Trace, ((p.1.access_token = none) ↔ (tokenSetSince p.2 = false)) →
      (((ops.foldl (fun q op => runOp op q.1 q.2) p).1.access_token = none) ↔
        (tokenSetSince (ops.foldl (fun q op => runOp op q.1 q.2) p).2 = false)) := by
  induction ops with
  | nil => intro p h; exact h
  | cons op rest ih =>
    intro p h
    exact ih (runOp op p.1 p.2) (inv_runOp op p.1 p.2 h)

theorem gvt_countInsert (env : Env) (s : Credential) (tr : Trace) :
    countInsert (get_valid_token env s tr).trace = countInsert tr := by
  simp only [get_valid_token]
  split
  · simp
  · split
    · split
      · simp [refresh_token]
      · simp [refresh_token]
    · split
      · simp
      · rfl

theorem gvt_countInvalidate (env : Env) (s : Credential) (tr : Trace) :
    countInvalidate (get_valid_token env s tr).trace = countInvalidate tr := by
  simp only [get_valid_token]
  split
  · simp
  · split
    · split
      · simp [refresh_token]
      · simp [refresh_token]
    · split
      · simp
      · rfl

theorem insert_log_countInsert (env : Env) (s : Credential) (tr : Trace) :
    countInsert (insert_log env s tr).trace ≤ countInsert tr + 1 := by
  simp only [insert_log]
  split
  · rw [gvt_countInsert]
    omega
  · simp [gvt_countInsert]

theorem insert_log_countInvalidate (env : Env) (s : Credential) (tr : Trace) :
    countInvalidate (insert_log env s tr).trace = countInvalidate tr := by
  simp only [insert_log]
  split
  · rw [gvt_countInvalidate]
  · simp [gvt_countInvalidate]

theorem insert_log_none_countRefresh (env : Env) (s : Credential) (tr : Trace)
    (h : strTruthy s.access_token = false) :
    countRefresh (insert_log env s tr).trace = countRefresh tr := by
  have ht : (get_valid_token env s tr).trace
      = tr ++ [Event.authCall (env.authResp (countAuth tr))] := by
    rw [gvt_no_token env s tr h]
    exact authReturning_trace env s tr
  simp only [insert_log]
  split
  · simp [ht]
  · simp [ht]

/-- C1: for every input, every starting credential state and every outcome of
the HTTP calls (network error, non-2xx status, malformed body, or success),
`log_success` returns normally: no exception propagates to its caller, and in
particular a failure of both insert attempts is caught and swallowed. -/
theorem log_success_never_raises (env : Env) (s : Credential) (tr : Trace) :
    (log_success env s tr).raised = false := by
  simp only [log_success]
  split
  · split
    · rfl
    · rfl
  · rfl

/-- C2 counterexample: a failing `_authenticate` call does not always leave
the credential unchanged.  With a 200 response whose JSON body holds
`access_token: "x"` but no `refresh_token` key, the call raises (KeyError on
`data["refresh_token"]`) yet `access_token` has already been overwritten,
because the source assigns `self.access_token = data["access_token"]` before
reading `data["refresh_token"]`. -/
theorem tokenUpdate_not_atomic_ce :
    (authenticate envNoRefreshField sNoTok []).raised = true ∧
    (authenticate envNoRefreshField sNoTok []).state.access_token ≠ sNoTok.access_token := by
  decide

/-- C2 amended: when `_authenticate` or `_refresh_token` fails,
`refresh_token` and `expires_at` are always left unchanged, and
`access_token` is left unchanged in every failure case (network error,
4xx/5xx status, malformed body, body missing `access_token`) except one: a
non-error response whose body holds `access_token` but lacks
`refresh_token`, in which case `access_token` alone has been updated to the
body's value. -/
theorem tokenUpdate_failure_frame (env : Env) (s : Credential) (tr : Trace) :
    ((authenticate env s tr).raised = true →
      failFrame s (authenticate env s tr).state (env.authResp (countAuth tr))) ∧
    ((refresh_token env s tr).raised = true →
      failFrame s (refresh_token env s tr).state (env.refreshResp (countRefresh tr))) := by
  constructor
  · intro h
    exact applyTokenOutcome_fail_frame _ _ _ h
  · intro h
    exact applyTokenOutcome_fail_frame _ _ _ h

/-- C2 witness: both implications of `tokenUpdate_failure_frame` discharged
at a concrete input — in `envAllFail` every call fails by network error, so
both calls raise and the failure frame holds. -/
theorem tokenUpdate_failure_frame_witness :
    failFrame sNoTok (authenticate envAllFail sNoTok []).state (envAllFail.authResp 0) ∧
    failFrame sNoTok (refresh_token envAllFail sNoTok []).state (envAllFail.refreshResp 0) :=
  ⟨(tokenUpdate_failure_frame envAllFail sNoTok []).1 rfl,
   (tokenUpdate_failure_frame envAllFail sNoTok []).2 rfl⟩

/-- C3 counterexample: the claimed invariant "access_token is absent iff no
successful authenticate/refresh has yet occurred or it was explicitly
invalidated" fails on a reachable state.  Calling `_authenticate` once on a
fresh instance in `envNoRefreshField` (200 response whose body lacks
`refresh_token`) yields a state whose `access_token` is present (`some "x"`)
although no successful authenticate/refresh has ever occurred and no
invalidation has happened. -/
theorem accessToken_invariant_ce :
    (runOps [Op.authenticateOp envNoRefreshField]).1.access_token = some "x" ∧
    successSince (runOps [Op.authenticateOp envNoRefreshField]).2 = false ∧
    countInvalidate (runOps [Op.authenticateOp envNoRefreshField]).2 = 0 ∧
    ¬ (((runOps [Op.authenticateOp envNoRefreshField]).1.access_token = none) ↔
        (successSince (runOps [Op.authenticateOp envNoRefreshField]).2 = false)) := by
  decide

/-- C3 amended: in every state reachable from a freshly constructed
`SupabaseLogger` by any sequence of its operations, `access_token` is absent
(None) iff no authenticate/refresh call has *written the token from a
response body* since construction or the last explicit invalidation — where
a call writes the token when it receives a non-4xx/5xx response whose body
holds `access_token`, even if that call then fails on a missing
`refresh_token` key.  (The original claim holds with "successful
authenticate/refresh" replaced by this weaker "token-writing" notion.) -/
theorem accessToken_none_iff_not_set (ops : List Op) :
    (((runOps ops).1.access_token = none) ↔ (tokenSetSince (runOps ops).2 = false)) := by
  have h0 : ((freshCredential.access_token = none) ↔ (tokenSetSince ([] : Trace) = false)) := by
    simp [freshCredential, tokenSetSince]
  exact inv_foldl ops (freshCredential, []) h0

/-- C4: from a state with no stored access token (`None`), `_get_valid_token`
appends exactly one event — an authentication call — so it performs exactly
one authentication call and never a refresh call; and when that call
succeeds it stores the new credential triple from the response body (with
`expires_in` defaulting to 3600) and returns the new access token. -/
theorem getValidToken_no_token_authenticates (env : Env) (s : Credential) (tr : Trace)
    (h : s.access_token = none) :
    (get_valid_token env s tr).trace = tr ++ [Event.authCall (env.authResp (countAuth tr))] ∧
    ((get_valid_token env s tr).raised = false →
      ∃ st a r ei,
        env.authResp (countAuth tr) = HttpOutcome.resp st (TokenBody.fields (some a) (some r) ei) ∧
        raisesForStatus st = false ∧
        (get_valid_token env s tr).state = ⟨some a, some r, some (env.now + ei.getD 3600)⟩ ∧
        (get_valid_token env s tr).ret = some a) := by
  have hs : strTruthy s.access_token = false := by rw [h]; rfl
  rw [gvt_no_token env s tr hs]
  refine ⟨authReturning_trace env s tr, ?_⟩
  intro hr
  rw [authReturning_raised] at hr
  simp at hr
  obtain ⟨st, a, r, ei, ho, hst, happ⟩ :=
    applyTokenOutcome_succeeds (env.authResp (countAuth tr)) env.now s hr
  have hf : (authReturning env s tr).raised = false := by
    rw [authReturning_raised, hr]; rfl
  refine ⟨st, a, r, ei, ho, hst, ?_, ?_⟩
  · rw [authReturning_state, happ]
  · rw [authReturning_ret env s tr hf, happ]

/-- C4 witness: the theorem applied at a fresh credential (token absent) in
an environment whose authentication call succeeds. -/
theorem getValidToken_no_token_authenticates_witness :
    (get_valid_token envAuthOk freshCredential []).trace
      = [] ++ [Event.authCall (envAuthOk.authResp (countAuth []))] ∧
    ((get_valid_token envAuthOk freshCredential []).raised = false →
      ∃ st a r ei,
        envAuthOk.authResp (countAuth [])
          = HttpOutcome.resp st (TokenBody.fields (some a) (some r) ei) ∧
        raisesForStatus st = false ∧
        (get_valid_token envAuthOk freshCredential []).state
          = ⟨some a, some r, some (envAuthOk.now + ei.getD 3600)⟩ ∧
        (get_valid_token envAuthOk freshCredential []).ret = some a) :=
  getValidToken_no_token_authenticates envAuthOk freshCredential [] rfl

/-- C5 counterexample: a state whose stored access token is the empty string
`""` (a string, with an unexpired `expires_at`: now = 0 < 100) nevertheless
triggers a network call, because `if not self.access_token:` is a Python
truthiness test and `""` is falsy: `_get_valid_token` authenticates instead
of returning the stored token with zero network calls. -/
theorem nonexpired_token_network_call_ce :
    sEmptyTok.access_token = some "" ∧ sEmptyTok.expires_at = some 100 ∧
    envAllFail.now < 100 ∧
    countAuth (get_valid_token envAllFail sEmptyTok []).trace = 1 := by
  decide

/-- C5 amended: for every state holding a *non-empty* access token whose
expiry has not been reached (`now < expires_at`), `_get_valid_token` performs
zero network calls, leaves all credential fields unchanged, and returns the
stored access token unchanged. -/
theorem nonexpired_nonempty_token_no_calls (env : Env) (s : Credential) (tr : Trace)
    (t : String) (e : Int) (h1 : s.access_token = some t) (h2 : t ≠ "")
    (h3 : s.expires_at = some e) (h4 : env.now < e) :
    get_valid_token env s tr = ⟨s, tr, false, some t⟩ := by
  have hle : ¬ (e ≤ env.now) := not_le.mpr h4
  simp [get_valid_token, strTruthy, h1, h2, h3, hle]

/-- C5 witness: the amended theorem applied at a concrete unexpired
non-empty token. -/
theorem nonexpired_nonempty_token_no_calls_witness :
    get_valid_token envAllFail sFreshTok [] = ⟨sFreshTok, [], false, some "tok"⟩ :=
  nonexpired_nonempty_token_no_calls envAllFail sFreshTok [] "tok" 10 rfl
    (by decide) rfl (by decide)

/-- C6 counterexample: a state holding an expired access token
(`now >= expires_at`, here `0 >= 0`) and a stored refresh token on which
`_get_valid_token` attempts no refresh call at all: with `expires_at = 0`
the Python condition `self.expires_at and current_time >= self.expires_at`
is falsy (`0` is falsy), so the stored token is returned with zero network
calls instead of the claimed single refresh attempt. -/
theorem expired_token_refresh_skipped_ce :
    sZeroExp.access_token = some "tok" ∧ sZeroExp.refresh_token = some "rt" ∧
    sZeroExp.expires_at = some 0 ∧ sZeroExp.expires_at.getD 0 ≤ envAllFail.now ∧
    get_valid_token envAllFail sZeroExp [] = ⟨sZeroExp, [], false, some "tok"⟩ ∧
    countRefresh (get_valid_token envAllFail sZeroExp []).trace = 0 := by
  decide

/-- C6 amended: for every state holding a non-empty expired access token
with a *nonzero* expiry (`now >= expires_at`, `expires_at ≠ 0`) and a
non-empty stored refresh token, `_get_valid_token` attempts exactly one
refresh call; when that refresh succeeds nothing else is called, and when it
fails exactly one authentication call follows within the same invocation —
never a second refresh. -/
theorem expired_token_refresh_then_auth (env : Env) (s : Credential) (tr : Trace)
    (t rt : String) (e : Int) (h1 : s.access_token = some t) (h2 : t ≠ "")
    (h3 : s.refresh_token = some rt) (h4 : rt ≠ "") (h5 : s.expires_at = some e)
    (h6 : e ≠ 0) (h7 : e ≤ env.now) :
    (get_valid_token env s tr).trace =
      (if outcomeSucceeds (env.refreshResp (countRefresh tr)) then
        tr ++ [Event.refreshCall (env.refreshResp (countRefresh tr))]
       else
        tr ++ [Event.refreshCall (env.refreshResp (countRefresh tr)),
               Event.authCall (env.authResp (countAuth tr))]) := by
  have hs : strTruthy s.access_token = true := by rw [h1]; exact strTruthy_some_true t h2
  have hrt : strTruthy s.refresh_token = true := by rw [h3]; exact strTruthy_some_true rt h4
  have hexp : intTruthy s.expires_at = true := by rw [h5]; simp [intTruthy, h6]
  have hs0 : ¬ (strTruthy s.access_token = false) := by rw [hs]; simp
  have hcond : ((intTruthy s.expires_at && decide (s.expires_at.getD 0 ≤ env.now)) &&
      strTruthy s.refresh_token) = true := by
    rw [hexp, hrt, h5]
    simp [h7]
  simp only [get_valid_token, if_neg hs0]
  rw [if_pos hcond]
  cases hOS : outcomeSucceeds (env.refreshResp (countRefresh tr)) with
  | false =>
    have hrr : (refresh_token env s tr).raised = true := by
      show (applyTokenOutcome (env.refreshResp (countRefresh tr)) env.now s).2 = true
      rw [applyTokenOutcome_raised, hOS]; rfl
    rw [if_neg (by rw [hrr]; simp)]
    rw [authReturning_trace]
    simp [refresh_token]
  | true =>
    have hrr : (refresh_token env s tr).raised = false := by
      show (applyTokenOutcome (env.refreshResp (countRefresh tr)) env.now s).2 = false
      rw [applyTokenOutcome_raised, hOS]; rfl
    rw [if_pos hrr]
    simp [refresh_token]

/-- C6 witness: the amended theorem applied at a concrete expired state in
`envAllFail`: the refresh call fails by network error, so exactly one
refresh call is followed by exactly one authentication call. -/
theorem expired_token_refresh_then_auth_witness :
    (get_valid_token envAllFail sExpiredTok []).trace =
      [Event.refreshCall HttpOutcome.netErr, Event.authCall HttpOutcome.netErr] := by
  rw [expired_token_refresh_then_auth envAllFail sExpiredTok [] "t" "r" (-1) rfl
    (by decide) rfl (by decide) rfl (by decide) (by decide)]
  decide

/-- C7: every execution of `log_success` issues at most two insert attempts
in total (the trace gains at most two insert-call events); when the first
attempt fails, the final trace is exactly the first attempt's trace followed
by one `invalidate` event and the retry attempt, so a first-attempt failure
is always followed by exactly one token invalidation before the single
retry; when the first attempt succeeds, no invalidation occurs. -/
theorem log_success_at_most_two_inserts (env : Env) (s : Credential) (tr : Trace) :
    countInsert (log_success env s tr).trace ≤ countInsert tr + 2 ∧
    (log_success env s tr).trace =
      (if (insert_log env s tr).raised then
        (insert_log env (invalidateToken (insert_log env s tr).state)
          ((insert_log env s tr).trace ++ [Event.invalidate])).trace
       else (insert_log env s tr).trace) ∧
    countInvalidate (log_success env s tr).trace =
      countInvalidate tr + (if (insert_log env s tr).raised then 1 else 0) := by
  by_cases h : (insert_log env s tr).raised = true
  · have htr : (log_success env s tr).trace =
        (insert_log env (invalidateToken (insert_log env s tr).state)
          ((insert_log env s tr).trace ++ [Event.invalidate])).trace := by
      simp only [log_success, if_pos h]
      split
      · rfl
      · rfl
    have a1 := insert_log_countInsert env s tr
    have a2 := insert_log_countInsert env (invalidateToken (insert_log env s tr).state)
      ((insert_log env s tr).trace ++ [Event.invalidate])
    have a3 : countInsert ((insert_log env s tr).trace ++ [Event.invalidate])
        = countInsert (insert_log env s tr).trace := by simp
    have b1 := insert_log_countInvalidate env s tr
    have b2 := insert_log_countInvalidate env (invalidateToken (insert_log env s tr).state)
      ((insert_log env s tr).trace ++ [Event.invalidate])
    have b3 : countInvalidate ((insert_log env s tr).trace ++ [Event.invalidate])
        = countInvalidate (insert_log env s tr).trace + 1 := by simp
    refine ⟨?_, ?_, ?_⟩
    · rw [htr]; omega
    · rw [if_pos h]; exact htr
    · rw [htr, if_pos h]; omega
  · have htr : (log_success env s tr).trace = (insert_log env s tr).trace := by
      simp only [log_success, if_neg h]
    have a1 := insert_log_countInsert env s tr
    have b1 := insert_log_countInvalidate env s tr
    refine ⟨?_, ?_, ?_⟩
    · rw [htr]; omega
    · rw [if_neg h]; exact htr
    · rw [htr, if_neg h]; omega

/-- C8 counterexample: in the spec's retry scenario (fresh shipper, working
credentials, log-insert endpoint answering 401 then 200), `log_success`
performs **two** authenticate calls, not the claimed one: the invalidation
before the retry discards the token, so the retry's `_get_valid_token`
authenticates again. -/
theorem retry_scenario_two_auth_calls_ce :
    countAuth (log_success envRetryScenario freshCredential []).trace = 2 ∧
    ¬ (countAuth (log_success envRetryScenario freshCredential []).trace = 1) := by
  decide

/-- C8 amended: in the retry scenario the exact behaviour is: one successful
authenticate call, one failed insert (401), one token invalidation, a
*second* successful authenticate call, and one successful insert (200); the
call returns with no visible error and holds the freshly stored credential. -/
theorem retry_scenario_trace :
    log_success envRetryScenario freshCredential [] =
      ⟨⟨some "a", some "r", some 3600⟩,
       [Event.authCall (HttpOutcome.resp 200 (TokenBody.fields (some "a") (some "r") (some 3600))),
        Event.insertCall (HttpOutcome.resp 401 ()),
        Event.invalidate,
        Event.authCall (HttpOutcome.resp 200 (TokenBody.fields (some "a") (some "r") (some 3600))),
        Event.insertCall (HttpOutcome.resp 200 ())],
       false⟩ := by
  decide

/-- C9 counterexample: a state whose access token is the (Python-falsy)
empty string `""` and whose `expires_at` is absent does trigger a network
call: `_get_valid_token` authenticates because `if not self.access_token:`
treats `""` as absent, refuting "zero network calls" for every state with a
present token and absent expiry. -/
theorem no_expiry_token_network_call_ce :
    sEmptyTokNoExp.access_token = some "" ∧ sEmptyTokNoExp.expires_at = none ∧
    countAuth (get_valid_token envAllFail sEmptyTokNoExp []).trace = 1 := by
  decide

/-- C9 amended: for every state holding a *non-empty* access token and no
expiry timestamp (`expires_at = None`), `_get_valid_token` performs zero
network calls, changes nothing, and returns the stored token: a token
without expiry is treated as never expired, regardless of the current time
and of any stored refresh token. -/
theorem no_expiry_nonempty_token_no_calls (env : Env) (s : Credential) (tr : Trace)
    (t : String) (h1 : s.access_token = some t) (h2 : t ≠ "") (h3 : s.expires_at = none) :
    get_valid_token env s tr = ⟨s, tr, false, some t⟩ := by
  simp [get_valid_token, strTruthy, intTruthy, h1, h2, h3]

/-- C9 witness: the amended theorem applied at a concrete expiry-free
credential that also stores a refresh token. -/
theorem no_expiry_nonempty_token_no_calls_witness :
    get_valid_token envAllFail sTokNoExp [] = ⟨sTokNoExp, [], false, some "tok"⟩ :=
  no_expiry_nonempty_token_no_calls envAllFail sTokNoExp [] "tok" rfl (by decide) rfl

/-- C10: the token invalidation performed by `log_success` before its retry
(`invalidateToken`, line 190) clears only `access_token` and leaves
`refresh_token` and `expires_at` unchanged; consequently `_get_valid_token`
on an invalidated credential always appends exactly one authentication call
(the full password path) and never a refresh call, and a whole `log_success`
run performs no refresh calls beyond those of its first insert attempt. -/
theorem invalidation_frame_retry_auth_only (env : Env) (s sAny : Credential)
    (tr trAny : Trace) :
    (invalidateToken sAny).access_token = none ∧
    (invalidateToken sAny).refresh_token = sAny.refresh_token ∧
    (invalidateToken sAny).expires_at = sAny.expires_at ∧
    (get_valid_token env (invalidateToken sAny) trAny).trace
      = trAny ++ [Event.authCall (env.authResp (countAuth trAny))] ∧
    countRefresh (log_success env s tr).trace = countRefresh (insert_log env s tr).trace := by
  refine ⟨rfl, rfl, rfl, ?_, ?_⟩
  · exact gvt_none_token_trace env (invalidateToken sAny) trAny rfl
  · by_cases h : (insert_log env s tr).raised = true
    · have htr : (log_success env s tr).trace =
          (insert_log env (invalidateToken (insert_log env s tr).state)
            ((insert_log env s tr).trace ++ [Event.invalidate])).trace := by
        simp only [log_success, if_pos h]
        split
        · rfl
        · rfl
      rw [htr, insert_log_none_countRefresh env (invalidateToken (insert_log env s tr).state)
        ((insert_log env s tr).trace ++ [Event.invalidate]) rfl]
      simp
    · simp only [log_success, if_neg h]
